import Mathlib

/-!
Verification of the ackis-siret-extractor repository.

Shallow embedding of the identifier validators
(app/scraper/validators.py and nodriver-version/validators.py),
the identifier extractor (production-version/app/scraper/extractors.py
together with the regex patterns of app/config.py), the retry
classifier (app/scraper/playwright_scraper.py) and the batch
scheduler / progress tracker (app/api/routes.py).

Strings are modelled as `List Char`; machine integers do not occur
(Python integers are unbounded, modelled as `Nat`); wall-clock times
are modelled as `Rat` (Python floats are used only for subtraction,
division and comparison here, all exact on the values considered).
-/

namespace SiretExtractor

/-! ## Character utilities -/

/-- ASCII decimal digit, as accepted by the `isdigit` checks on the
identifier strings (the identifiers are ASCII). -/
def isAsciiDigit (c : Char) : Bool := 48 ≤ c.toNat && c.toNat ≤ 57

/-- Numeric value of a digit character, as `int(ch)` in Python. -/
def digitVal (c : Char) : Nat := c.toNat - 48

/-- Characters matched by the Python regex class `\s` on the inputs in
scope: ASCII whitespace plus the no-break space mentioned in
app/config.py. -/
def isPySpace (c : Char) : Bool :=
  c = ' ' || c = '\t' || c = '\n' || c = '\r' ||
  c = Char.ofNat 11 || c = Char.ofNat 12 || c = Char.ofNat 160

/-- Characters removed by `re.sub(r'[\s-]', '', s)` in
app/scraper/validators.py. -/
def isSepChar (c : Char) : Bool := isPySpace c || c = '-'

/-- `re.sub(r'[\s-]', '', s)`: drop whitespace and dashes. -/
def stripSep (s : List Char) : List Char := s.filter (fun c => !isSepChar c)

/-- ASCII upper-casing of one character, as `str.upper` acts on the
ASCII strings in scope. -/
def pyUpper (c : Char) : Char :=
  if 97 ≤ c.toNat ∧ c.toNat ≤ 122 then Char.ofNat (c.toNat - 32) else c

/-- ASCII lower-casing of one character, as `str.lower` acts on the
ASCII strings in scope. -/
def pyLowerChar (c : Char) : Char :=
  if 65 ≤ c.toNat ∧ c.toNat ≤ 90 then Char.ofNat (c.toNat + 32) else c

/-- `str.lower` on a string. -/
def pyLower (s : List Char) : List Char := s.map pyLowerChar

/-- `int(s)` on a string of decimal digits. -/
def natOfDigits (l : List Char) : Nat := l.foldl (fun a c => 10 * a + digitVal c) 0

/-- Word character for the Python regex `\b` boundary
(ASCII letters, digits, underscore; the inputs in scope are ASCII). -/
def isWordChar (c : Char) : Bool :=
  isAsciiDigit c || (97 ≤ c.toNat && c.toNat ≤ 122) ||
  (65 ≤ c.toNat && c.toNat ≤ 90) || c = '_'

/-- `l1.startsWith l2` style check: does `hay` start with `needle`? -/
def startsWithB : List Char → List Char → Bool
  | [], _ => true
  | _ :: _, [] => false
  | a :: as, b :: bs => a == b && startsWithB as bs

/-- Python substring test `needle in hay`. -/
def substrB (needle : List Char) : List Char → Bool
  | [] => startsWithB needle []
  | c :: t => startsWithB needle (c :: t) || substrB needle t

/-! ## Validators of app/scraper/validators.py

`luhn_checksum` computes `sum(digits[-1::-2])` (every second digit from
the right, starting at the last one, added plainly) plus, for every
remaining digit `d` (`digits[-2::-2]`), the decimal digit sum of `2*d`.
`luhnSumFromRight` consumes the reversed digit list pairwise: the first
element of each pair is from the plain slice, the second from the
doubled slice, which is exactly that computation. -/

/-- Decimal digit sum of `d * 2` via `sum(digits_of(str(d * 2)))`,
written with division and remainder (exact for `d ≤ 9`, the only
arguments that occur since `luhn_checksum` is applied after `isdigit`). -/
def ddDiv (d : Nat) : Nat := (d * 2) / 10 + (d * 2) % 10

/-- The Luhn sum of app/scraper/validators.py on the reversed digit
list: rightmost digit plain, next doubled-and-digit-summed, alternating. -/
def luhnSumFromRight : List Nat → Nat
  | [] => 0
  | [d] => d
  | d :: d2 :: rest => d + ddDiv d2 + luhnSumFromRight rest

/-- `luhn_checksum` of app/scraper/validators.py. -/
def luhn_checksum (number : List Char) : Bool :=
  decide (luhnSumFromRight ((number.map digitVal).reverse) % 10 = 0)

/-- `validate_siret` of app/scraper/validators.py: strip separators,
require 14 digits, Luhn check. There is no La Poste special case in
this file. -/
def validate_siret (s : List Char) : Bool :=
  if s.isEmpty then false
  else
    let siret := stripSep s
    if siret.length ≠ 14 then false
    else if ¬ (siret.all isAsciiDigit = true) then false
    else luhn_checksum siret

/-- `validate_siren` of app/scraper/validators.py. -/
def validate_siren (s : List Char) : Bool :=
  if s.isEmpty then false
  else
    let siren := stripSep s
    if siren.length ≠ 9 then false
    else if ¬ (siren.all isAsciiDigit = true) then false
    else luhn_checksum siren

/-- `validate_tva` of app/scraper/validators.py. -/
def validate_tva (s : List Char) : Bool :=
  if s.isEmpty then false
  else
    let tva := (stripSep s).map pyUpper
    if tva.length ≠ 13 then false
    else if tva.take 2 ≠ ['F', 'R'] then false
    else
      let numeric := tva.drop 2
      if ¬ (numeric.all isAsciiDigit = true) then false
      else if ¬ (validate_siren (numeric.drop 2) = true) then false
      else decide ((12 + 3 * (natOfDigits (numeric.drop 2) % 97)) % 97
                    = natOfDigits (numeric.take 2))

/-- `extract_siren_from_siret` of app/scraper/validators.py. -/
def extract_siren_from_siret (siret : List Char) : Option (List Char) :=
  if validate_siret siret = true then some ((stripSep siret).take 9) else none

/-! ## Validators of nodriver-version/validators.py -/

/-- `siret.replace(' ', '')`. -/
def cleanSpaces (s : List Char) : List Char := s.filter (fun c => c ≠ ' ')

/-- `mult - 9 if mult > 9 else mult` with `mult = digit * 2`. -/
def ddIf (d : Nat) : Nat := if d * 2 > 9 then d * 2 - 9 else d * 2

/-- The indexed Luhn loop of nodriver-version/validators.py: the flag
says whether the current (leftmost remaining) digit is doubled; it
alternates at each step. `is_siret_valid` starts with the flag true
(even indices doubled), `is_siren_valid` with the flag false
(odd indices doubled). -/
def luhnAlt : Bool → List Nat → Nat
  | _, [] => 0
  | true, d :: rest => ddIf d + luhnAlt false rest
  | false, d :: rest => d + luhnAlt true rest

/-- The fixed La Poste SIREN `356000000` of nodriver-version/validators.py. -/
def laPosteChars : List Char := ['3', '5', '6', '0', '0', '0', '0', '0', '0']

/-- `is_siret_valid` of nodriver-version/validators.py, including the
La Poste special case. -/
def is_siret_valid (s : List Char) : Bool :=
  let cleaned := cleanSpaces s
  if cleaned.length ≠ 14 ∨ ¬ (cleaned.all isAsciiDigit = true) then false
  else if cleaned.take 9 = laPosteChars then
    decide ((cleaned.map digitVal).sum % 5 = 0)
  else
    decide (luhnAlt true (cleaned.map digitVal) % 10 = 0)

/-- `is_siren_valid` of nodriver-version/validators.py. -/
def is_siren_valid (s : List Char) : Bool :=
  let cleaned := cleanSpaces s
  if cleaned.length ≠ 9 ∨ ¬ (cleaned.all isAsciiDigit = true) then false
  else decide (luhnAlt false (cleaned.map digitVal) % 10 = 0)

/-! ## Regex scanning

Executable models of `re.findall` for the three patterns of
app/config.py:
  SIRET_PATTERN = \b(?:\d{3}\s*){2}\d{3}\s*\d{5}\b
  SIREN_PATTERN = \b(?:\d{3}\s*){3}\b
  TVA_PATTERN   = \bFR\s*\d{2}\s*\d{9}\b   (IGNORECASE)
Since `\s` and `\d` are disjoint, matching is deterministic except for
the trailing `\s*` of the SIREN pattern, which can give back its
whitespace when the final `\b` fails; that single backtracking step is
modelled explicitly in `matchSirenAt`. -/

/-- `\d{n}`: split off exactly `n` digits. -/
def takeDigitsN : Nat → List Char → Option (List Char × List Char)
  | 0, l => some ([], l)
  | _ + 1, [] => none
  | n + 1, c :: t =>
    if isAsciiDigit c then (takeDigitsN n t).map (fun p => (c :: p.1, p.2)) else none

/-- Greedy `\s*`: maximal run of whitespace and the remainder. -/
def spanSpaces (l : List Char) : List Char × List Char :=
  (l.takeWhile isPySpace, l.dropWhile isPySpace)

/-- `\b` at the position after the match, when the match ends in a
digit: the next character must be absent or a non-word character. -/
def boundaryAfterDigit (rest : List Char) : Bool :=
  rest.head?.all (fun c => !isWordChar c)

/-- Match `(?:\d{3}\s*){2}\d{3}\s*\d{5}\b` at the current position
(the caller has already checked the leading `\b`). Returns the matched
text and the remainder. -/
def matchSiretAt (l : List Char) : Option (List Char × List Char) := do
  let (g1, r1) ← takeDigitsN 3 l
  let (s1, r1b) := spanSpaces r1
  let (g2, r2) ← takeDigitsN 3 r1b
  let (s2, r2b) := spanSpaces r2
  let (g3, r3) ← takeDigitsN 3 r2b
  let (s3, r3b) := spanSpaces r3
  let (g4, r4) ← takeDigitsN 5 r3b
  if boundaryAfterDigit r4 then
    some (g1 ++ s1 ++ g2 ++ s2 ++ g3 ++ s3 ++ g4, r4)
  else none

/-- Match `(?:\d{3}\s*){3}\b` at the current position. The final `\s*`
is greedy but backtracks in front of `\b`: with trailing whitespace
present, either all of it is kept (boundary holds when a word character
follows it) or all of it is given back (boundary between the last digit
and the first whitespace character); intermediate splits sit between
two non-word characters and never yield a boundary. -/
def matchSirenAt (l : List Char) : Option (List Char × List Char) := do
  let (g1, r1) ← takeDigitsN 3 l
  let (s1, r1b) := spanSpaces r1
  let (g2, r2) ← takeDigitsN 3 r1b
  let (s2, r2b) := spanSpaces r2
  let (g3, r3) ← takeDigitsN 3 r2b
  let (s3, r3b) := spanSpaces r3
  if s3.isEmpty then
    if boundaryAfterDigit r3 then some (g1 ++ s1 ++ g2 ++ s2 ++ g3, r3) else none
  else
    if r3b.head?.any isWordChar then
      some (g1 ++ s1 ++ g2 ++ s2 ++ g3 ++ s3, r3b)
    else
      some (g1 ++ s1 ++ g2 ++ s2 ++ g3, r3)

/-- Match `FR\s*\d{2}\s*\d{9}\b` (case-insensitive) at the current
position. -/
def matchTvaAt (l : List Char) : Option (List Char × List Char) :=
  match l with
  | f :: r :: rest =>
    if (f = 'F' ∨ f = 'f') ∧ (r = 'R' ∨ r = 'r') then do
      let (s1, r1) := spanSpaces rest
      let (g1, r2) ← takeDigitsN 2 r1
      let (s2, r3) := spanSpaces r2
      let (g2, r4) ← takeDigitsN 9 r3
      if boundaryAfterDigit r4 then
        some (f :: r :: (s1 ++ g1 ++ s2 ++ g2), r4)
      else none
    else none
  | _ => none

/-- Is the character before the next scanning position a word
character (used for the leading `\b` of the next match attempt)? -/
def lastIsWord (m : List Char) : Bool := m.getLast?.any isWordChar

/-- `re.findall` driver: try the matcher at every position whose
leading `\b` holds (all three patterns start with a word character, so
the boundary means the previous character is not a word character);
after a match, scanning resumes at its end. The fuel argument bounds
the recursion and is initialised to more than the text length; every
step consumes at least one character, so the fuel never runs out on
the calls made here. -/
def scanWith (matchAt : List Char → Option (List Char × List Char)) :
    Nat → Bool → List Char → List (List Char)
  | 0, _, _ => []
  | _ + 1, _, [] => []
  | fuel + 1, prevWord, c :: t =>
    if !prevWord && isWordChar c then
      match matchAt (c :: t) with
      | some (m, rest) => m :: scanWith matchAt fuel (lastIsWord m) rest
      | none => scanWith matchAt fuel (isWordChar c) t
    else
      scanWith matchAt fuel (isWordChar c) t

/-- `re.findall(pattern, text)`. -/
def pyFindall (matchAt : List Char → Option (List Char × List Char))
    (text : List Char) : List (List Char) :=
  scanWith matchAt (text.length + 1) false text

/-! ## Extractors of production-version/app/scraper/extractors.py -/

/-- `BLACKLIST_SIRENS` of app/config.py. -/
def BLACKLIST_SIRENS : List (List Char) :=
  ["797876562".toList, "423646512".toList, "537407926".toList,
   "443061841".toList, "424761419".toList, "518518460".toList,
   "814776647".toList, "890176703".toList, "433115904".toList,
   "732829320".toList]

/-- `re.sub(r'\s+', '', c)`. -/
def stripWs (c : List Char) : List Char := c.filter (fun ch => !isPySpace ch)

/-- `extract_siret_candidates`. -/
def extract_siret_candidates (text : List Char) : List (List Char) :=
  if text.isEmpty then []
  else (pyFindall matchSiretAt text).map stripWs

/-- `extract_siren_candidates`. -/
def extract_siren_candidates (text : List Char) : List (List Char) :=
  if text.isEmpty then []
  else (pyFindall matchSirenAt text).map stripWs

/-- `extract_tva_candidates`: find, strip whitespace, upper-case. -/
def extract_tva_candidates (text : List Char) : List (List Char) :=
  if text.isEmpty then []
  else (pyFindall matchTvaAt text).map (fun c => (stripWs c).map pyUpper)

/-- The extraction result of `extract_identifiers`: the dictionary
with keys siret, siren, tva. -/
structure IdentifierSet where
  siret : Option (List Char)
  siren : Option (List Char)
  tva : Option (List Char)
deriving Repr, DecidableEq

/-- The first loop of `extract_identifiers`: accept the first
checksum-valid SIRET candidate whose derived SIREN is not
blacklisted; return it together with the derived SIREN. -/
def siretLoop : List (List Char) → Option (List Char × Option (List Char))
  | [] => none
  | c :: rest =>
    if validate_siret c = true then
      let sfs := extract_siren_from_siret c
      if sfs.any (fun s => decide (s ∈ BLACKLIST_SIRENS)) = true then
        siretLoop rest
      else
        some (c, sfs)
    else
      siretLoop rest

/-- The second loop of `extract_identifiers`: accept the first bare
SIREN candidate that is not blacklisted, is not a substring of any
SIRET candidate, and is checksum-valid. -/
def sirenLoop (sirets : List (List Char)) : List (List Char) → Option (List Char)
  | [] => none
  | c :: rest =>
    if decide (c ∈ BLACKLIST_SIRENS) = true then sirenLoop sirets rest
    else if sirets.any (fun s => substrB c s) = true then sirenLoop sirets rest
    else if validate_siren c = true then some c
    else sirenLoop sirets rest

/-- The third loop of `extract_identifiers`: accept the first valid
TVA candidate whose embedded SIREN (its last 9 characters) is not
blacklisted; fill an empty SIREN slot from it when that SIREN is
itself valid and not blacklisted. -/
def tvaLoop (siren0 : Option (List Char)) :
    List (List Char) → Option (List Char) × Option (List Char)
  | [] => (none, siren0)
  | c :: rest =>
    if validate_tva c = true then
      if 11 ≤ c.length ∧ c.drop (c.length - 9) ∈ BLACKLIST_SIRENS then
        tvaLoop siren0 rest
      else
        let newSiren :=
          match siren0 with
          | some s => some s
          | none =>
            if 11 ≤ c.length then
              let ts := c.drop (c.length - 9)
              if validate_siren ts = true ∧ ts ∉ BLACKLIST_SIRENS then some ts
              else none
            else none
        (some c, newSiren)
    else tvaLoop siren0 rest

/-- `extract_identifiers` of production-version/app/scraper/extractors.py. -/
def extract_identifiers (text : List Char) : IdentifierSet :=
  if text.isEmpty then ⟨none, none, none⟩
  else
    let sirets := extract_siret_candidates text
    let step1 := siretLoop sirets
    let siret : Option (List Char) := step1.map (fun p => p.1)
    let siren1 : Option (List Char) := step1.bind (fun p => p.2)
    let siren2 : Option (List Char) :=
      match siren1 with
      | some s => some s
      | none => sirenLoop sirets (extract_siren_candidates text)
    let step3 := tvaLoop siren2 (extract_tva_candidates text)
    ⟨siret, step3.2, step3.1⟩

/-- `any(identifiers.values())`. -/
def idsAny (r : IdentifierSet) : Bool :=
  r.siret.isSome || r.siren.isSome || r.tva.isSome

/-- `search_in_priority_areas` of
production-version/app/scraper/extractors.py: try each non-empty
priority section in order, return the first extraction with at least
one identifier, else fall back to the full page content. -/
def search_in_priority_areas (page_content : List Char) :
    List (List Char) → IdentifierSet
  | [] => extract_identifiers page_content
  | s :: rest =>
    if s.isEmpty = true then search_in_priority_areas page_content rest
    else
      let ids := extract_identifiers s
      if idsAny ids = true then ids
      else search_in_priority_areas page_content rest

/-! ## Retry classifier of app/scraper/playwright_scraper.py -/

/-- `permanent_errors` of `should_retry_exception`. -/
def permanent_errors : List (List Char) :=
  ["net::err_name_not_resolved".toList,
   "net::err_connection_refused".toList,
   "net::err_connection_closed".toList,
   "net::err_cert_".toList,
   "ns_error_unknown_host".toList,
   "404".toList,
   "not found".toList,
   "dns".toList,
   "enotfound".toList,
   "econnrefused".toList]

/-- `should_retry_exception`, applied to `str(exception)`: lower-case
the message and return false exactly when it contains one of the
permanent-error signatures (the for-loop with early return). -/
def should_retry_exception (errMsg : List Char) : Bool :=
  let e := pyLower errMsg
  !(permanent_errors.any (fun p => substrB p e))

/-! ## Batch scheduler and progress tracker of app/api/routes.py

The mutable `BatchState` is modelled as a record; the per-URL
completion callback of `process_batch_background` mutates the counters
in one synchronous block (routes.py lines 266-272 and 290-291, with no
await point between the increments), so under cooperative asyncio
scheduling every observable snapshot sits between whole completion
events. A batch run is therefore a fold of completion events over the
initial state, and the observable snapshots are the states after each
prefix of events. The `results` list and the log ring buffer do not
affect the claimed counter fields and are omitted from the state. -/

/-- The counter/timing part of the `BatchState` dataclass. -/
structure BatchStateM where
  total_urls : Nat
  completed : Nat
  success : Nat
  failed : Nat
  in_progress : Bool
  start_time : ℚ
deriving Repr, DecidableEq

/-- The state created at batch submission (`extract_batch_urls`):
all counters zero, in progress. -/
def initBatchState (total : Nat) (t0 : ℚ) : BatchStateM :=
  { total_urls := total, completed := 0, success := 0, failed := 0,
    in_progress := true, start_time := t0 }

/-- Outcome of one URL: the identifiers extracted without an
exception, or an exception. -/
inductive UrlOutcome where
  | ok (ids : IdentifierSet)
  | exn
deriving Repr, DecidableEq

/-- The per-URL counter update of `process_url_with_semaphore`:
`completed` always increments; `success` increments when at least one
identifier was found, otherwise `failed` increments (also on
exception). -/
def applyOutcome (st : BatchStateM) : UrlOutcome → BatchStateM
  | .ok ids =>
    if idsAny ids = true then
      { st with completed := st.completed + 1, success := st.success + 1 }
    else
      { st with completed := st.completed + 1, failed := st.failed + 1 }
  | .exn => { st with completed := st.completed + 1, failed := st.failed + 1 }

/-- The batch run: apply the completion events in order. -/
def runEvents (st : BatchStateM) (os : List UrlOutcome) : BatchStateM :=
  os.foldl applyOutcome st

/-- `status_str` of `process_url_with_semaphore`: on a completion
without exception, `"success" if success else ("no_data" if not
has_data else "error")` with `success = has_data = any(values)`; on an
exception, `"error"`. -/
def statusOf : UrlOutcome → String
  | .ok ids =>
    let success := idsAny ids
    let has_data := idsAny ids
    if success = true then "success"
    else if has_data = false then "no_data"
    else "error"
  | .exn => "error"

/-- The progress snapshot returned by `get_batch_progress`. -/
structure BatchProgressM where
  total_urls : Nat
  completed : Nat
  success : Nat
  failed : Nat
  in_progress : Bool
  start_time : ℚ
  elapsed_time : ℚ
  estimated_time_remaining : Option ℚ
deriving Repr, DecidableEq

/-- `get_batch_progress` of app/api/routes.py, as a function of the
stored state and the query time: `elapsed = now - start_time`; the
estimate is `(total - completed) / (completed / elapsed)` when at
least one URL has completed and the batch is in progress and the
throughput is positive, absent otherwise. -/
def get_batch_progress (st : BatchStateM) (now : ℚ) : BatchProgressM :=
  let elapsed : ℚ := now - st.start_time
  let est : Option ℚ :=
    if 0 < st.completed ∧ st.in_progress = true then
      let throughput : ℚ := (st.completed : ℚ) / elapsed
      let remaining : ℚ := (st.total_urls : ℚ) - (st.completed : ℚ)
      if 0 < throughput then some (remaining / throughput) else none
    else none
  { total_urls := st.total_urls, completed := st.completed,
    success := st.success, failed := st.failed,
    in_progress := st.in_progress, start_time := st.start_time,
    elapsed_time := elapsed, estimated_time_remaining := est }

/-! ## Spec-side definitions (from the wording of the claims) -/

/-- The SIRET validity rule as claim C1 words it, on the cleaned
character string: if the first 9 digits are the La Poste SIREN, the
sum of all 14 digits must be divisible by 5; otherwise the Luhn total
with doubling at even indices (subtracting 9 from doubled digits
greater than 9) must be divisible by 10. -/
def siretSpecClaim (c : List Char) : Bool :=
  if c.take 9 = laPosteChars then
    decide ((c.map digitVal).sum % 5 = 0)
  else
    decide (luhnAlt true (c.map digitVal) % 10 = 0)

/-- The TVA validity rule as claim C7 words it: after stripping
separators and upper-casing, the value is FR followed by exactly 11
digits, its last 9 digits pass `validate_siren`, and its 2 check
digits equal `(12 + 3 * (siren mod 97)) mod 97`. -/
def tvaSpecClaim (s : List Char) : Prop :=
  ∃ ds : List Char,
    (stripSep s).map pyUpper = 'F' :: 'R' :: ds ∧
    ds.length = 11 ∧
    ds.all isAsciiDigit = true ∧
    validate_siren (ds.drop 2) = true ∧
    natOfDigits (ds.take 2) = (12 + 3 * (natOfDigits (ds.drop 2) % 97)) % 97

/-! ## Helper lemmas -/

theorem digitVal_le_nine (c : Char) (h : isAsciiDigit c = true) : digitVal c ≤ 9 := by
  unfold isAsciiDigit at h
  unfold digitVal
  simp only [Bool.and_eq_true, decide_eq_true_eq] at h
  omega

theorem ddDiv_eq_ddIf (d : Nat) (h : d ≤ 9) : ddDiv d = ddIf d := by
  interval_cases d <;> rfl

theorem luhnSumFromRight_eq_aux (n : Nat) :
    ∀ rds : List Nat, rds.length ≤ n → (∀ d ∈ rds, d ≤ 9) →
      luhnSumFromRight rds = luhnAlt false rds := by
  induction n with
  | zero =>
    intro rds hlen _
    have : rds = [] := List.length_eq_zero.mp (Nat.le_zero.mp hlen)
    subst this
    rfl
  | succ n ih =>
    intro rds hlen hd
    match rds with
    | [] => rfl
    | [d] => simp [luhnSumFromRight, luhnAlt]
    | d :: d2 :: rest =>
      have h2 : d2 ≤ 9 := hd d2 (by simp)
      have hrest : rest.length ≤ n := by
        simp only [List.length_cons] at hlen
        omega
      have hmem : ∀ x ∈ rest, x ≤ 9 := fun x hx => hd x (by simp [hx])
      simp only [luhnSumFromRight, luhnAlt, ih rest hrest hmem, ddDiv_eq_ddIf d2 h2]
      omega

theorem luhnSumFromRight_eq (rds : List Nat) (hd : ∀ d ∈ rds, d ≤ 9) :
    luhnSumFromRight rds = luhnAlt false rds :=
  luhnSumFromRight_eq_aux rds.length rds (Nat.le_refl _) hd

theorem luhnAlt_append_singleton (xs : List Nat) :
    ∀ (f : Bool) (x : Nat),
      luhnAlt f (xs ++ [x]) =
        luhnAlt f xs + luhnAlt (if xs.length % 2 = 0 then f else !f) [x] := by
  induction xs with
  | nil => intro f x; simp [luhnAlt]
  | cons a t ih =>
    intro f x
    by_cases h : t.length % 2 = 0
    · have h1 : (t.length + 1) % 2 = 1 := by omega
      cases f <;>
        simp [luhnAlt, ih, h, h1, Nat.add_assoc]
    · have h1 : (t.length + 1) % 2 = 0 := by omega
      cases f <;>
        simp [luhnAlt, ih, h, h1, Nat.add_assoc]

theorem luhnAlt_reverse (l : List Nat) :
    luhnAlt false l.reverse = luhnAlt (decide (l.length % 2 = 0)) l := by
  induction l with
  | nil => rfl
  | cons x t ih =>
    rw [List.reverse_cons, luhnAlt_append_singleton, List.length_reverse, ih]
    by_cases h : t.length % 2 = 0
    · have h1 : (t.length + 1) % 2 = 1 := by omega
      simp [luhnAlt, h, h1, List.length_cons]
      omega
    · have h1 : (t.length + 1) % 2 = 0 := by omega
      simp [luhnAlt, h, h1, List.length_cons]
      omega

theorem all_digits_map_le (c : List Char) (hd : c.all isAsciiDigit = true) :
    ∀ d ∈ c.map digitVal, d ≤ 9 := by
  intro d hdm
  rcases List.mem_map.mp hdm with ⟨ch, hch, rfl⟩
  exact digitVal_le_nine ch (by
    have := List.all_eq_true.mp hd ch hch
    exact this)

theorem luhn_checksum_eq (c : List Char) (hd : c.all isAsciiDigit = true) :
    luhn_checksum c =
      decide (luhnAlt (decide (c.length % 2 = 0)) (c.map digitVal) % 10 = 0) := by
  unfold luhn_checksum
  rw [luhnSumFromRight_eq (c.map digitVal).reverse
        (fun d hdm => all_digits_map_le c hd d (List.mem_reverse.mp hdm)),
      luhnAlt_reverse, List.length_map]

theorem extract_siren_from_siret_of_valid (c : List Char)
    (hv : validate_siret c = true) :
    extract_siren_from_siret c = some ((stripSep c).take 9) := by
  unfold extract_siren_from_siret
  simp [hv]

theorem siretLoop_fst_eq_find (cands : List (List Char)) :
    (siretLoop cands).map Prod.fst =
      cands.find? (fun c =>
        validate_siret c && !(decide ((stripSep c).take 9 ∈ BLACKLIST_SIRENS))) := by
  induction cands with
  | nil => rfl
  | cons c rest ih =>
    simp only [siretLoop, List.find?]
    by_cases hv : validate_siret c = true
    · rw [extract_siren_from_siret_of_valid c hv]
      by_cases hb : (stripSep c).take 9 ∈ BLACKLIST_SIRENS
      · simpa [hv, hb] using ih
      · simp [hv, hb]
    · simpa [hv] using ih

theorem sirenLoop_eq_find (sirets cands : List (List Char)) :
    sirenLoop sirets cands =
      cands.find? (fun c =>
        !(decide (c ∈ BLACKLIST_SIRENS)) &&
        !(sirets.any (fun s => substrB c s)) &&
        validate_siren c) := by
  induction cands with
  | nil => rfl
  | cons c rest ih =>
    simp only [sirenLoop, List.find?]
    by_cases hb : c ∈ BLACKLIST_SIRENS
    · simpa [hb] using ih
    · by_cases hc : sirets.any (fun s => substrB c s) = true
      · simpa [hb, hc] using ih
      · by_cases hv : validate_siren c = true
        · simp [hb, hc, hv]
        · simpa [hb, hc, hv] using ih

theorem applyOutcome_completed (st : BatchStateM) (o : UrlOutcome) :
    (applyOutcome st o).completed = st.completed + 1 := by
  cases o with
  | ok ids => by_cases h : idsAny ids = true <;> simp [applyOutcome, h]
  | exn => rfl

theorem applyOutcome_sf (st : BatchStateM) (o : UrlOutcome) :
    (applyOutcome st o).success + (applyOutcome st o).failed =
      st.success + st.failed + 1 := by
  cases o with
  | ok ids =>
    by_cases h : idsAny ids = true
    · simp [applyOutcome, h]
      omega
    · simp [applyOutcome, h]
      omega
  | exn =>
    simp [applyOutcome]
    omega

theorem applyOutcome_success_mono (st : BatchStateM) (o : UrlOutcome) :
    st.success ≤ (applyOutcome st o).success := by
  cases o with
  | ok ids =>
    by_cases h : idsAny ids = true
    · simp [applyOutcome, h]
    · simp [applyOutcome, h]
  | exn => simp [applyOutcome]

theorem applyOutcome_failed_mono (st : BatchStateM) (o : UrlOutcome) :
    st.failed ≤ (applyOutcome st o).failed := by
  cases o with
  | ok ids =>
    by_cases h : idsAny ids = true
    · simp [applyOutcome, h]
    · simp [applyOutcome, h]
  | exn => simp [applyOutcome]

theorem runEvents_completed (os : List UrlOutcome) :
    ∀ st : BatchStateM, (runEvents st os).completed = st.completed + os.length := by
  induction os with
  | nil => intro st; simp [runEvents]
  | cons o t ih =>
    intro st
    simp only [runEvents, List.foldl_cons] at *
    rw [ih, applyOutcome_completed]
    simp [List.length_cons]
    omega

theorem runEvents_sf (os : List UrlOutcome) :
    ∀ st : BatchStateM,
      (runEvents st os).success + (runEvents st os).failed =
        st.success + st.failed + os.length := by
  induction os with
  | nil => intro st; simp [runEvents]
  | cons o t ih =>
    intro st
    simp only [runEvents, List.foldl_cons] at *
    rw [ih, applyOutcome_sf]
    simp [List.length_cons]
    omega

theorem runEvents_success_mono (os : List UrlOutcome) :
    ∀ st : BatchStateM, st.success ≤ (runEvents st os).success := by
  induction os with
  | nil => intro st; simp [runEvents]
  | cons o t ih =>
    intro st
    simp only [runEvents, List.foldl_cons] at *
    exact Nat.le_trans (applyOutcome_success_mono st o) (ih _)

theorem runEvents_failed_mono (os : List UrlOutcome) :
    ∀ st : BatchStateM, st.failed ≤ (runEvents st os).failed := by
  induction os with
  | nil => intro st; simp [runEvents]
  | cons o t ih =>
    intro st
    simp only [runEvents, List.foldl_cons] at *
    exact Nat.le_trans (applyOutcome_failed_mono st o) (ih _)

theorem runEvents_append (st : BatchStateM) (a b : List UrlOutcome) :
    runEvents st (a ++ b) = runEvents (runEvents st a) b := by
  simp [runEvents, List.foldl_append]

theorem should_retry_false_of (p m : List Char) (hp : p ∈ permanent_errors)
    (hs : substrB p (pyLower m) = true) : should_retry_exception m = false := by
  unfold should_retry_exception
  simp only [Bool.not_eq_false', List.any_eq_true]
  exact ⟨p, hp, hs⟩

/-! ## Claim theorems -/

/-- C5: every SIRET-shaped candidate that passes the checksum but
whose first 9 digits are denylisted is skipped and scanning continues:
the SIRET slot of the extraction result is exactly the first candidate
(in scan order) that is checksum-valid and whose derived SIREN is not
in the denylist, and it stays empty when no such candidate exists. -/
theorem c5_siret_denylist_skip (text : List Char) :
    (extract_identifiers text).siret =
      (extract_siret_candidates text).find? (fun c =>
        validate_siret c && !(decide ((stripSep c).take 9 ∈ BLACKLIST_SIRENS))) := by
  by_cases he : text.isEmpty = true
  · have h : text = [] := by
      cases text with
      | nil => rfl
      | cons a t => simp at he
    subst h
    rfl
  · have he' : text.isEmpty = false := by
      cases text with
      | nil => exact absurd rfl he
      | cons a t => rfl
    unfold extract_identifiers
    rw [he']
    exact siretLoop_fst_eq_find _

/-- C9: the prioritized search returns the extraction of the first
region (in list order) whose extraction yields a non-empty
IdentifierSet, and falls back to the extraction of the full page text
when no region yields one. Empty regions are skipped by the code
without extracting, which agrees because extraction of empty text is
the all-empty IdentifierSet. -/
theorem c9_priority_search (page : List Char) (sections : List (List Char)) :
    search_in_priority_areas page sections =
      ((sections.find? (fun s => idsAny (extract_identifiers s))).map
        extract_identifiers).getD (extract_identifiers page) := by
  induction sections with
  | nil => rfl
  | cons s rest ih =>
    simp only [search_in_priority_areas, List.find?]
    by_cases he : s.isEmpty = true
    · have hs : s = [] := by
        cases s with
        | nil => rfl
        | cons a t => simp at he
      subst hs
      have hids : idsAny (extract_identifiers ([] : List Char)) = false := rfl
      rw [hids, if_pos he]
      exact ih
    · rw [if_neg he]
      by_cases ha : idsAny (extract_identifiers s) = true
      · rw [ha, if_pos rfl]
        rfl
      · have ha' : idsAny (extract_identifiers s) = false := by
          cases hx : idsAny (extract_identifiers s) with
          | false => rfl
          | true => exact absurd hx ha
        rw [ha', if_neg (by simp)]
        exact ih

/-- C10: every per-URL result status is in the set success, no_data,
error, and never blocked; a URL completing without exception but with
no identifiers is recorded as no_data and increments the failed
counter, not the success counter. -/
theorem c10_status_taxonomy :
    (∀ o : UrlOutcome,
       (statusOf o = "success" ∨ statusOf o = "no_data" ∨ statusOf o = "error") ∧
       statusOf o ≠ "blocked") ∧
    (∀ (st : BatchStateM) (ids : IdentifierSet), idsAny ids = false →
       statusOf (UrlOutcome.ok ids) = "no_data" ∧
       (applyOutcome st (UrlOutcome.ok ids)).failed = st.failed + 1 ∧
       (applyOutcome st (UrlOutcome.ok ids)).success = st.success) := by
  constructor
  · intro o
    cases o with
    | ok ids =>
      by_cases h : idsAny ids = true
      · exact ⟨Or.inl (by simp [statusOf, h]), by simp [statusOf, h]⟩
      · have h' : idsAny ids = false := by
          cases hx : idsAny ids with
          | false => rfl
          | true => exact absurd hx h
        exact ⟨Or.inr (Or.inl (by simp [statusOf, h'])), by simp [statusOf, h']⟩
    | exn => exact ⟨Or.inr (Or.inr rfl), by decide⟩
  · intro st ids h
    refine ⟨by simp [statusOf, h], by simp [applyOutcome, h], by simp [applyOutcome, h]⟩

/-- Witness for C10 at the all-empty identifier set. -/
theorem c10_status_taxonomy_witness :
    idsAny ⟨none, none, none⟩ = false ∧
    statusOf (UrlOutcome.ok ⟨none, none, none⟩) = "no_data" ∧
    (applyOutcome (initBatchState 1 0) (UrlOutcome.ok ⟨none, none, none⟩)).failed =
      (initBatchState 1 0).failed + 1 ∧
    (applyOutcome (initBatchState 1 0) (UrlOutcome.ok ⟨none, none, none⟩)).success =
      (initBatchState 1 0).success :=
  ⟨rfl,
   (c10_status_taxonomy.2 (initBatchState 1 0) ⟨none, none, none⟩ rfl).1,
   (c10_status_taxonomy.2 (initBatchState 1 0) ⟨none, none, none⟩ rfl).2.1,
   (c10_status_taxonomy.2 (initBatchState 1 0) ⟨none, none, none⟩ rfl).2.2⟩

/-- C8: at every observable snapshot (state after a prefix of the
completion events) of a batch whose URL count equals the number of
events, completed equals success plus failed, completed never exceeds
the total, and all three counters are monotonically non-decreasing
along the snapshot sequence. -/
theorem c8_batch_counters (total : Nat) (t0 : ℚ) (os : List UrlOutcome)
    (hlen : os.length = total) (k k' : Nat) (hk : k ≤ k') :
    ((runEvents (initBatchState total t0) (os.take k)).completed =
       (runEvents (initBatchState total t0) (os.take k)).success +
       (runEvents (initBatchState total t0) (os.take k)).failed) ∧
    (runEvents (initBatchState total t0) (os.take k)).completed ≤ total ∧
    (runEvents (initBatchState total t0) (os.take k)).completed ≤
      (runEvents (initBatchState total t0) (os.take k')).completed ∧
    (runEvents (initBatchState total t0) (os.take k)).success ≤
      (runEvents (initBatchState total t0) (os.take k')).success ∧
    (runEvents (initBatchState total t0) (os.take k)).failed ≤
      (runEvents (initBatchState total t0) (os.take k')).failed := by
  have hsplit : os.take k ++ (os.take k').drop k = os.take k' := by
    conv_rhs => rw [← List.take_append_drop k (os.take k')]
    rw [List.take_take, Nat.min_eq_left hk]
  have hB : runEvents (initBatchState total t0) (os.take k') =
      runEvents (runEvents (initBatchState total t0) (os.take k))
        ((os.take k').drop k) := by
    rw [← runEvents_append, hsplit]
  have h1 := runEvents_completed (os.take k) (initBatchState total t0)
  have h2 := runEvents_sf (os.take k) (initBatchState total t0)
  have hlk : (os.take k).length = min k os.length := List.length_take k os
  have hic : (initBatchState total t0).completed = 0 := rfl
  have his : (initBatchState total t0).success = 0 := rfl
  have hif : (initBatchState total t0).failed = 0 := rfl
  refine ⟨?_, ?_, ?_, ?_, ?_⟩
  · omega
  · omega
  · have h3 := runEvents_completed ((os.take k').drop k)
      (runEvents (initBatchState total t0) (os.take k))
    rw [hB]
    omega
  · rw [hB]
    exact runEvents_success_mono _ _
  · rw [hB]
    exact runEvents_failed_mono _ _

/-- Witness for C8 on a concrete two-event batch. -/
theorem c8_batch_counters_witness :
    ([UrlOutcome.exn, UrlOutcome.ok ⟨none, some ['3'], none⟩].length = 2) ∧
    (1 ≤ 2) ∧
    ((runEvents (initBatchState 2 0)
        ([UrlOutcome.exn, UrlOutcome.ok ⟨none, some ['3'], none⟩].take 1)).completed =
      (runEvents (initBatchState 2 0)
        ([UrlOutcome.exn, UrlOutcome.ok ⟨none, some ['3'], none⟩].take 1)).success +
      (runEvents (initBatchState 2 0)
        ([UrlOutcome.exn, UrlOutcome.ok ⟨none, some ['3'], none⟩].take 1)).failed) ∧
    (runEvents (initBatchState 2 0)
        ([UrlOutcome.exn, UrlOutcome.ok ⟨none, some ['3'], none⟩].take 1)).completed ≤ 2 ∧
    (runEvents (initBatchState 2 0)
        ([UrlOutcome.exn, UrlOutcome.ok ⟨none, some ['3'], none⟩].take 1)).completed ≤
      (runEvents (initBatchState 2 0)
        ([UrlOutcome.exn, UrlOutcome.ok ⟨none, some ['3'], none⟩].take 2)).completed ∧
    (runEvents (initBatchState 2 0)
        ([UrlOutcome.exn, UrlOutcome.ok ⟨none, some ['3'], none⟩].take 1)).success ≤
      (runEvents (initBatchState 2 0)
        ([UrlOutcome.exn, UrlOutcome.ok ⟨none, some ['3'], none⟩].take 2)).success ∧
    (runEvents (initBatchState 2 0)
        ([UrlOutcome.exn, UrlOutcome.ok ⟨none, some ['3'], none⟩].take 1)).failed ≤
      (runEvents (initBatchState 2 0)
        ([UrlOutcome.exn, UrlOutcome.ok ⟨none, some ['3'], none⟩].take 2)).failed := by
  refine ⟨rfl, by decide, ?_⟩
  have h := c8_batch_counters 2 0
    [UrlOutcome.exn, UrlOutcome.ok ⟨none, some ['3'], none⟩] rfl 1 2 (by decide)
  exact ⟨h.1, h.2.1, h.2.2.1, h.2.2.2.1, h.2.2.2.2⟩

/-- C3 counterexample: a failure carrying the Chromium
connection-reset signature net::ERR_CONNECTION_RESET is classified as
retryable (the classifier returns true), while the claim requires
every connection-reset failure to be non-retryable. The permanent list
contains net::err_connection_closed but not net::err_connection_reset. -/
theorem c3_counterexample :
    substrB "net::err_connection_reset".toList
        (pyLower "Page.goto: net::ERR_CONNECTION_RESET".toList) = true ∧
    should_retry_exception "Page.goto: net::ERR_CONNECTION_RESET".toList = true := by
  exact ⟨by decide, by decide⟩

/-- C3 (amended): failures whose message carries a DNS-resolution,
connection-refused, connection-CLOSED, certificate or 404 signature
are not retryable; navigation timeouts, connection-reset failures and
unclassified exceptions are retryable. -/
theorem c3_retry_classifier :
    (∀ m : List Char,
       substrB "net::err_name_not_resolved".toList (pyLower m) = true →
       should_retry_exception m = false) ∧
    (∀ m : List Char,
       substrB "net::err_connection_refused".toList (pyLower m) = true →
       should_retry_exception m = false) ∧
    (∀ m : List Char,
       substrB "net::err_connection_closed".toList (pyLower m) = true →
       should_retry_exception m = false) ∧
    (∀ m : List Char,
       substrB "net::err_cert_".toList (pyLower m) = true →
       should_retry_exception m = false) ∧
    (∀ m : List Char,
       substrB "404".toList (pyLower m) = true →
       should_retry_exception m = false) ∧
    should_retry_exception "Timeout 30000ms exceeded.".toList = true ∧
    should_retry_exception "net::ERR_CONNECTION_RESET".toList = true ∧
    should_retry_exception "Unexpected failure while navigating".toList = true := by
  refine ⟨?_, ?_, ?_, ?_, ?_, by decide, by decide, by decide⟩
  · intro m h
    exact should_retry_false_of _ m (by decide) h
  · intro m h
    exact should_retry_false_of _ m (by decide) h
  · intro m h
    exact should_retry_false_of _ m (by decide) h
  · intro m h
    exact should_retry_false_of _ m (by decide) h
  · intro m h
    exact should_retry_false_of _ m (by decide) h

/-- Witness for C3 on concrete permanent-failure messages. -/
theorem c3_retry_classifier_witness :
    (substrB "net::err_name_not_resolved".toList
       (pyLower "Page.goto: net::ERR_NAME_NOT_RESOLVED at x".toList) = true ∧
     should_retry_exception "Page.goto: net::ERR_NAME_NOT_RESOLVED at x".toList = false) ∧
    (substrB "net::err_connection_refused".toList
       (pyLower "net::ERR_CONNECTION_REFUSED".toList) = true ∧
     should_retry_exception "net::ERR_CONNECTION_REFUSED".toList = false) ∧
    (substrB "net::err_connection_closed".toList
       (pyLower "net::ERR_CONNECTION_CLOSED".toList) = true ∧
     should_retry_exception "net::ERR_CONNECTION_CLOSED".toList = false) ∧
    (substrB "net::err_cert_".toList
       (pyLower "net::ERR_CERT_AUTHORITY_INVALID".toList) = true ∧
     should_retry_exception "net::ERR_CERT_AUTHORITY_INVALID".toList = false) ∧
    (substrB "404".toList (pyLower "HTTP 404".toList) = true ∧
     should_retry_exception "HTTP 404".toList = false) :=
  ⟨⟨by decide, c3_retry_classifier.1 _ (by decide)⟩,
   ⟨by decide, c3_retry_classifier.2.1 _ (by decide)⟩,
   ⟨by decide, c3_retry_classifier.2.2.1 _ (by decide)⟩,
   ⟨by decide, c3_retry_classifier.2.2.2.1 _ (by decide)⟩,
   ⟨by decide, c3_retry_classifier.2.2.2.2.1 _ (by decide)⟩⟩

/-- C4 counterexample: for a finished batch (in_progress false,
started at time 0), two progress queries at times 10 and 20 report
elapsed times 10 and 20: the reported elapsed time keeps growing with
the query time and is not frozen at the final elapsed time. -/
theorem c4_counterexample :
    (get_batch_progress ⟨2, 2, 2, 0, false, 0⟩ 10).elapsed_time = 10 ∧
    (get_batch_progress ⟨2, 2, 2, 0, false, 0⟩ 20).elapsed_time = 20 ∧
    (get_batch_progress ⟨2, 2, 2, 0, false, 0⟩ 20).elapsed_time -
      (get_batch_progress ⟨2, 2, 2, 0, false, 0⟩ 10).elapsed_time = 10 := by
  refine ⟨?_, ?_, ?_⟩ <;> norm_num [get_batch_progress]

/-- C4 (amended): the estimate is absent before the first completion;
while the batch is in progress with at least one completion and
positive elapsed time it equals
(total - completed) / (completed / elapsed); after completion the
estimate is absent again and the reported elapsed time is simply the
query time minus the start time (not frozen). -/
theorem c4_progress_estimate (st : BatchStateM) (now : ℚ) :
    (st.completed = 0 →
       (get_batch_progress st now).estimated_time_remaining = none) ∧
    (st.in_progress = false →
       (get_batch_progress st now).estimated_time_remaining = none ∧
       (get_batch_progress st now).elapsed_time = now - st.start_time) ∧
    (0 < st.completed → st.in_progress = true → 0 < now - st.start_time →
       (get_batch_progress st now).estimated_time_remaining =
         some (((st.total_urls : ℚ) - (st.completed : ℚ)) /
               ((st.completed : ℚ) / (now - st.start_time)))) := by
  refine ⟨?_, ?_, ?_⟩
  · intro h
    simp [get_batch_progress, h]
  · intro h
    exact ⟨by simp [get_batch_progress, h], by simp [get_batch_progress]⟩
  · intro hc hip he
    have hth : 0 < (st.completed : ℚ) / (now - st.start_time) :=
      div_pos (by exact_mod_cast hc) he
    simp [get_batch_progress, hc, hip, hth]

/-- Witness for C4 on concrete states: a fresh batch and a running
batch with 4 of 10 URLs completed after 8 seconds. -/
theorem c4_progress_estimate_witness :
    (initBatchState 5 0).completed = 0 ∧
    (get_batch_progress (initBatchState 5 0) 3).estimated_time_remaining = none ∧
    (0 < (⟨10, 4, 3, 1, true, 0⟩ : BatchStateM).completed) ∧
    ((⟨10, 4, 3, 1, true, 0⟩ : BatchStateM).in_progress = true) ∧
    (0 < (8 : ℚ) - (⟨10, 4, 3, 1, true, 0⟩ : BatchStateM).start_time) ∧
    (get_batch_progress ⟨10, 4, 3, 1, true, 0⟩ 8).estimated_time_remaining =
      some ((((⟨10, 4, 3, 1, true, 0⟩ : BatchStateM).total_urls : ℚ) -
              ((⟨10, 4, 3, 1, true, 0⟩ : BatchStateM).completed : ℚ)) /
            (((⟨10, 4, 3, 1, true, 0⟩ : BatchStateM).completed : ℚ) /
              ((8 : ℚ) - (⟨10, 4, 3, 1, true, 0⟩ : BatchStateM).start_time))) :=
  ⟨rfl, (c4_progress_estimate (initBatchState 5 0) 3).1 rfl,
   by norm_num, rfl, by norm_num,
   (c4_progress_estimate ⟨10, 4, 3, 1, true, 0⟩ 8).2.2 (by norm_num) rfl (by norm_num)⟩

/-- C1 counterexample: the input 35600000000001 is 14 ASCII digits
whose first 9 digits are the La Poste SIREN and whose digit sum 15 is
divisible by 5, so the claim requires validateSiret to return true;
the app/production validator validate_siret returns false because it
applies the plain Luhn rule with no La Poste special case. -/
theorem c1_counterexample :
    (stripSep "35600000000001".toList).length = 14 ∧
    (stripSep "35600000000001".toList).all isAsciiDigit = true ∧
    (stripSep "35600000000001".toList).take 9 = laPosteChars ∧
    ((stripSep "35600000000001".toList).map digitVal).sum % 5 = 0 ∧
    validate_siret "35600000000001".toList = false :=
  ⟨by decide, by decide, by decide, by decide, by decide⟩

/-- C1 (amended): the nodriver validator is_siret_valid implements the
claimed rule exactly (La Poste prefix gives the mod-5 digit-sum rule,
any other prefix the even-index-doubling Luhn rule); the validator
validate_siret of app/scraper/validators.py applies the
even-index-doubling Luhn rule to every 14-digit input, including those
with the La Poste prefix, with no special case. -/
theorem c1_siret_validators :
    (∀ s : List Char,
       (cleanSpaces s).length = 14 →
       (cleanSpaces s).all isAsciiDigit = true →
       is_siret_valid s = siretSpecClaim (cleanSpaces s)) ∧
    (∀ s : List Char,
       (stripSep s).length = 14 →
       (stripSep s).all isAsciiDigit = true →
       validate_siret s =
         decide (luhnAlt true ((stripSep s).map digitVal) % 10 = 0)) := by
  constructor
  · intro s h1 h2
    unfold is_siret_valid siretSpecClaim
    rw [if_neg (by simp [h1, h2])]
  · intro s h1 h2
    have hne : s.isEmpty = false := by
      cases s with
      | nil => simp [stripSep] at h1
      | cons a t => rfl
    unfold validate_siret
    rw [hne]
    rw [if_neg (by simp), if_neg (by omega), if_neg (by simp [h2])]
    rw [luhn_checksum_eq _ h2, h1,
        show (decide ((14 : Nat) % 2 = 0)) = true from rfl]

/-- Witness for C1: the La Poste-prefixed input (with digit-group
spacing) on the nodriver validator and the scenario SIRET on the app
validator. -/
theorem c1_siret_validators_witness :
    (cleanSpaces "356 000 000 00001".toList).length = 14 ∧
    (cleanSpaces "356 000 000 00001".toList).all isAsciiDigit = true ∧
    is_siret_valid "356 000 000 00001".toList =
      siretSpecClaim (cleanSpaces "356 000 000 00001".toList) ∧
    (stripSep "73282932000074".toList).length = 14 ∧
    (stripSep "73282932000074".toList).all isAsciiDigit = true ∧
    validate_siret "73282932000074".toList =
      decide (luhnAlt true ((stripSep "73282932000074".toList).map digitVal) % 10 = 0) :=
  ⟨by decide, by decide,
   c1_siret_validators.1 "356 000 000 00001".toList (by decide) (by decide),
   by decide, by decide,
   c1_siret_validators.2 "73282932000074".toList (by decide) (by decide)⟩

theorem validate_tva_eq (s : List Char) :
    validate_tva s =
      (decide ((((stripSep s).map pyUpper).length = 13)) &&
       decide (((stripSep s).map pyUpper).take 2 = ['F', 'R']) &&
       (((stripSep s).map pyUpper).drop 2).all isAsciiDigit &&
       validate_siren ((((stripSep s).map pyUpper).drop 2).drop 2) &&
       decide ((12 + 3 * (natOfDigits ((((stripSep s).map pyUpper).drop 2).drop 2) % 97)) % 97
                = natOfDigits ((((stripSep s).map pyUpper).drop 2).take 2))) := by
  by_cases hs : s.isEmpty = true
  · have h : s = [] := by
      cases s with
      | nil => rfl
      | cons a t => simp at hs
    subst h
    rfl
  · have hs' : s.isEmpty = false := by
      cases s with
      | nil => exact absurd rfl hs
      | cons a t => rfl
    unfold validate_tva
    rw [hs']
    simp only [Bool.false_eq_true, if_false]
    by_cases h1 : ((stripSep s).map pyUpper).length = 13
    · rw [if_neg (by omega)]
      by_cases h2 : ((stripSep s).map pyUpper).take 2 = ['F', 'R']
      · rw [if_neg (not_not_intro h2)]
        by_cases h3 : (((stripSep s).map pyUpper).drop 2).all isAsciiDigit = true
        · rw [if_neg (not_not_intro h3)]
          by_cases h4 : validate_siren ((((stripSep s).map pyUpper).drop 2).drop 2) = true
          · rw [if_neg (not_not_intro h4)]
            have e1 : decide ((((stripSep s).map pyUpper).length = 13)) = true := by
              rw [h1]
              decide
            have e2 : decide (((stripSep s).map pyUpper).take 2 = ['F', 'R']) = true := by
              rw [h2]
              decide
            rw [e1, e2, h3, h4]
            simp only [Bool.true_and]
          · have h4' : validate_siren ((((stripSep s).map pyUpper).drop 2).drop 2) = false := by
              cases hx : validate_siren ((((stripSep s).map pyUpper).drop 2).drop 2) with
              | false => rfl
              | true => exact absurd hx h4
            rw [if_pos h4, h4']
            simp only [Bool.and_false, Bool.false_and]
        · have h3' : (((stripSep s).map pyUpper).drop 2).all isAsciiDigit = false := by
            cases hx : (((stripSep s).map pyUpper).drop 2).all isAsciiDigit with
            | false => rfl
            | true => exact absurd hx h3
          rw [if_pos h3, h3']
          simp only [Bool.and_false, Bool.false_and]
      · rw [if_pos h2, decide_eq_false h2]
        simp only [Bool.and_false, Bool.false_and]
    · rw [if_pos h1, decide_eq_false h1]
      simp only [Bool.and_false, Bool.false_and]

/-- C7: validate_tva returns true exactly when, after stripping
separators and upper-casing, the value is FR followed by exactly 11
digits, its last 9 digits pass validate_siren, and its 2 check digits
equal (12 + 3 * (siren mod 97)) mod 97. -/
theorem c7_tva_validator (s : List Char) :
    validate_tva s = true ↔ tvaSpecClaim s := by
  rw [validate_tva_eq]
  unfold tvaSpecClaim
  simp only [Bool.and_eq_true, decide_eq_true_eq]
  constructor
  · rintro ⟨⟨⟨⟨hl, ht⟩, hall⟩, hv⟩, hck⟩
    refine ⟨((stripSep s).map pyUpper).drop 2, ?_, ?_, hall, hv, hck.symm⟩
    · conv_lhs => rw [← List.take_append_drop 2 ((stripSep s).map pyUpper)]
      rw [ht]
      rfl
    · rw [List.length_drop, hl]
  · rintro ⟨ds, hds, hlen, hall, hv, hck⟩
    rw [hds]
    have hd2 : ('F' :: 'R' :: ds).drop 2 = ds := rfl
    have ht2 : ('F' :: 'R' :: ds).take 2 = ['F', 'R'] := rfl
    rw [hd2, ht2]
    refine ⟨⟨⟨⟨?_, rfl⟩, hall⟩, hv⟩, hck.symm⟩
    simp [hlen]

/-- Witness for C7: the valid TVA FR40303265045 satisfies the claimed
characterization. -/
theorem c7_tva_validator_witness : tvaSpecClaim ("FR40303265045".toList) :=
  (c7_tva_validator "FR40303265045".toList).mp (by decide)

/-- The scenario text of claim C2. -/
def c2Text : List Char := "SIRET : 73282932000074".toList

/-- C2 counterexample: with the shipped configuration the extraction
of the scenario text yields no SIRET and no SIREN at all, while the
claim requires siret 73282932000074 and siren 732829320. -/
theorem c2_counterexample :
    (extract_identifiers c2Text).siret = none ∧
    (extract_identifiers c2Text).siren = none :=
  ⟨by decide, by decide⟩

/-- C2 (amended): the scenario text yields the all-empty
IdentifierSet: the single SIRET-shaped candidate 73282932000074 is
checksum-valid but its SIREN prefix 732829320 is in the shipped
denylist BLACKLIST_SIRENS (the Hostinger entry of app/config.py), so
the candidate is skipped and no other candidate exists in the text. -/
theorem c2_extract_scenario :
    extract_identifiers c2Text = ⟨none, none, none⟩ ∧
    extract_siret_candidates c2Text = ["73282932000074".toList] ∧
    validate_siret "73282932000074".toList = true ∧
    "732829320".toList ∈ BLACKLIST_SIRENS ∧
    extract_siren_candidates c2Text = [] ∧
    extract_tva_candidates c2Text = [] :=
  ⟨by decide, by decide, by decide, by decide, by decide, by decide⟩

/-- The text of the C6 counterexample: a checksum-invalid 14-digit
SIRET-shaped group followed by a bare checksum-valid 9-digit group
that is a substring of the former. -/
def c6Text : List Char := "38831831300000 siren 388318313".toList

/-- C6 counterexample: 388318313 is a checksum-valid, non-denylisted
bare 9-digit group and no SIRET candidate is accepted (the only
SIRET-shaped candidate fails the checksum), so the claim requires the
standalone-SIREN step to accept 388318313; the code instead skips it
because it is contained in the (non-accepted) SIRET-shaped candidate
38831831300000, leaving the SIREN slot empty. -/
theorem c6_counterexample :
    validate_siren "388318313".toList = true ∧
    decide ("388318313".toList ∈ BLACKLIST_SIRENS) = false ∧
    validate_siret "38831831300000".toList = false ∧
    (extract_identifiers c6Text).siret = none ∧
    (extract_identifiers c6Text).siren = none :=
  ⟨by decide, by decide, by decide, by decide, by decide⟩

/-- C6 (amended): when the SIRET step accepts nothing and there are no
TVA-shaped candidates, the SIREN slot of the extraction result is the
first bare 9-digit candidate that is not denylisted, is not contained
(as a substring) in ANY SIRET-shaped candidate of the text — accepted
or not — and passes the SIREN checksum. -/
theorem c6_standalone_siren (text : List Char)
    (h1 : siretLoop (extract_siret_candidates text) = none)
    (h2 : extract_tva_candidates text = []) :
    (extract_identifiers text).siren =
      (extract_siren_candidates text).find? (fun c =>
        !(decide (c ∈ BLACKLIST_SIRENS)) &&
        !((extract_siret_candidates text).any (fun s => substrB c s)) &&
        validate_siren c) := by
  by_cases he : text.isEmpty = true
  · have h : text = [] := by
      cases text with
      | nil => rfl
      | cons a t => simp at he
    subst h
    rfl
  · have he' : text.isEmpty = false := by
      cases text with
      | nil => exact absurd rfl he
      | cons a t => rfl
    unfold extract_identifiers
    rw [he']
    simp only [h1, h2, Option.bind, tvaLoop]
    exact sirenLoop_eq_find _ _

/-- Witness for C6 on the concrete counterexample text, where the
characterization evaluates to an empty SIREN slot. -/
theorem c6_standalone_siren_witness :
    siretLoop (extract_siret_candidates c6Text) = none ∧
    extract_tva_candidates c6Text = [] ∧
    (extract_identifiers c6Text).siren =
      (extract_siren_candidates c6Text).find? (fun c =>
        !(decide (c ∈ BLACKLIST_SIRENS)) &&
        !((extract_siret_candidates c6Text).any (fun s => substrB c s)) &&
        validate_siren c) :=
  ⟨by decide, by decide, c6_standalone_siren c6Text (by decide) (by decide)⟩

end SiretExtractor
